import Mathlib

/-!
Shallow embedding of the cohort-analysis engine of the CohortAnalysis
repository (`src/utils/cohortAnalysis.ts`, types from `src/types.ts`).

Modelling conventions:
* Calendar dates are records `(year, month, day)` with the JavaScript
  convention that `month` is 0-based (`Date.getMonth()`), compared
  lexicographically (matching `getTime()` order for calendar dates).
* Revenue amounts (`arr`) are integers.
* The `CohortType` parameter is a `String`: at runtime the TypeScript union
  `'month' | 'quarter' | 'year'` is erased and the `switch` statements in the
  source carry explicit `default:` branches, which the embedding reproduces.
* JavaScript `Map` insertion-order iteration is modelled by `groupByKey`,
  which keeps keys in first-appearance order and group members in input order.
* `Array.prototype.sort` with a numeric comparator is a stable sort; it is
  modelled by the structurally recursive stable sort `stableSort` with the
  corresponding boolean `le`.
-/

/-- A calendar date, `month` 0-based as in JavaScript `Date.getMonth()`. -/
structure DateYMD where
  year : Nat
  month : Nat
  day : Nat
deriving DecidableEq, Repr

/-- Timestamp order on calendar dates (lexicographic on year, month, day). -/
def dateLE (a b : DateYMD) : Bool :=
  a.year < b.year ||
    (a.year == b.year &&
      (a.month < b.month || (a.month == b.month && a.day ≤ b.day)))

/-- `transactionType` field of `TransactionData` (`src/types.ts`). -/
inductive TxType where
  | new
  | expansion
  | contraction
  | churn
  | renewal
deriving DecidableEq, Repr

/-- `TransactionData` (`src/types.ts`); the optional `previousARR` field is
never read by the analysis code and is omitted. -/
structure TransactionData where
  accountId : String
  transactionDate : DateYMD
  arr : Int
  transactionType : TxType
deriving DecidableEq, Repr

/-- `CustomerSummary` (`src/types.ts`). -/
structure CustomerSummary where
  accountId : String
  firstTransactionDate : DateYMD
  transactions : List TransactionData
  currentARR : Int
  isActive : Bool
  cohortName : String
deriving DecidableEq, Repr

/-- `CustomerData` (`src/types.ts`). -/
structure CustomerData where
  accountId : String
  closeDate : DateYMD
  arr : Int
deriving DecidableEq, Repr

/-- `CohortData` (`src/types.ts`); `retentionByMonth` is the object with
integer keys 0..24, modelled as the list of its 25 values in key order. -/
structure CohortData where
  cohortName : String
  cohortDate : DateYMD
  initialRevenue : Int
  customers : List CustomerData
  retentionByMonth : List Int
deriving DecidableEq, Repr

/-- `CohortAnalysis` (`src/types.ts`). -/
structure CohortAnalysis where
  cohorts : List CohortData
  maxMonths : Nat
deriving DecidableEq, Repr

/-- `AnalysisSettings` (`src/types.ts`). -/
structure AnalysisSettings where
  includeExpansionARR : Bool
  excludeChurnedAccounts : Bool
deriving DecidableEq, Repr

/-- `String(n).padStart(2, '0')` for a natural number `n`. -/
def pad2 (n : Nat) : String :=
  let s := toString n
  if s.length < 2 then "0" ++ s else s

/-- `formatCohortName` (`cohortAnalysis.ts` lines 3-18): the `default:`
branch of the `switch` produces the quarter format. -/
def formatCohortName (date : DateYMD) (cohortType : String) : String :=
  let year := date.year
  let month := date.month
  if cohortType = "month" then
    toString year ++ "-" ++ pad2 (month + 1)
  else if cohortType = "quarter" then
    "Q" ++ toString (month / 3 + 1) ++ " " ++ toString year
  else if cohortType = "year" then
    toString year
  else
    "Q" ++ toString (month / 3 + 1) ++ " " ++ toString year

/-- `getCohortStartDate` (`cohortAnalysis.ts` lines 20-36): the `default:`
branch of the `switch` produces the quarter start. -/
def getCohortStartDate (date : DateYMD) (cohortType : String) : DateYMD :=
  if cohortType = "month" then
    ⟨date.year, date.month, 1⟩
  else if cohortType = "quarter" then
    ⟨date.year, date.month / 3 * 3, 1⟩
  else if cohortType = "year" then
    ⟨date.year, 0, 1⟩
  else
    ⟨date.year, date.month / 3 * 3, 1⟩

/-- `getMonthDifference` (`cohortAnalysis.ts` lines 38-45). -/
def getMonthDifference (cohortDate dataDate : DateYMD) : Int :=
  ((dataDate.year : Int) - cohortDate.year) * 12 +
    ((dataDate.month : Int) - cohortDate.month)

/-- `targetDate.setMonth(targetDate.getMonth() + k)` for a date whose day
component is 1 (JavaScript month arithmetic with carry into the year). -/
def addMonths (d : DateYMD) (k : Nat) : DateYMD :=
  let m := d.month + k
  ⟨d.year + m / 12, m % 12, d.day⟩

/-- Insert `x` into a sorted list: before the first element `y` with
`le x y`, after every earlier element (the stable insertion). -/
def orderedInsert (le : α → α → Bool) (x : α) : List α → List α
  | [] => [x]
  | y :: ys => if le x y then x :: y :: ys else y :: orderedInsert le x ys

/-- Stable sort by a boolean `le`, modelling JavaScript
`Array.prototype.sort` with an ascending comparator. -/
def stableSort (le : α → α → Bool) : List α → List α
  | [] => []
  | x :: xs => orderedInsert le x (stableSort le xs)

/-- JavaScript `Map` grouping: insert `x` under `key`, keeping keys in
first-appearance order and appending within an existing group. -/
def insertGrouped (key : String) (x : α) :
    List (String × List α) → List (String × List α)
  | [] => [(key, [x])]
  | (k, xs) :: rest =>
    if k = key then (k, xs ++ [x]) :: rest
    else (k, xs) :: insertGrouped key x rest

/-- Group a list by a string key, JavaScript `Map` iteration order. -/
def groupByKey (key : α → String) (l : List α) : List (String × List α) :=
  l.foldl (fun acc x => insertGrouped (key x) x acc) []

/-- `processTransactionData` (`cohortAnalysis.ts` lines 48-87): group
transactions by account, sort each history by date, and derive the summary.
Groups produced by `groupByKey` are never empty, so the `[]` branch is
unreachable. -/
def processTransactionData (transactions : List TransactionData) :
    List CustomerSummary :=
  (groupByKey (fun t => t.accountId) transactions).filterMap fun g =>
    let sortedTransactions :=
      stableSort (fun a b => dateLE a.transactionDate b.transactionDate) g.2
    match sortedTransactions with
    | [] => none
    | firstTransaction :: rest =>
      let lastTransaction := rest.getLastD firstTransaction
      let isActive :=
        !(lastTransaction.transactionType == TxType.churn) &&
          decide (0 < lastTransaction.arr)
      some
        { accountId := g.1
          firstTransactionDate := firstTransaction.transactionDate
          transactions := sortedTransactions
          currentARR := if isActive then lastTransaction.arr else 0
          isActive := isActive
          cohortName := "" }

/-- `getCustomerRevenueForMonth` (`cohortAnalysis.ts` lines 89-122). -/
def getCustomerRevenueForMonth (customer : CustomerSummary)
    (targetDate : DateYMD) (settings : AnalysisSettings) : Int :=
  let relevantTransactions :=
    customer.transactions.filter fun t => dateLE t.transactionDate targetDate
  match relevantTransactions.getLast? with
  | none => 0
  | some latestTransaction =>
    if latestTransaction.transactionType = TxType.churn then
      if settings.excludeChurnedAccounts then 0 else 0
    else
      let revenue := latestTransaction.arr
      let revenue :=
        if !settings.includeExpansionARR then
          let originalARR :=
            match customer.transactions.find? fun t =>
                decide (0 < t.arr) && (t.transactionType == TxType.new) with
            | some originalTransaction => originalTransaction.arr
            | none => revenue
          min revenue originalARR
        else revenue
      max revenue 0

/-- Assign the cohort name derived from the first transaction date
(`cohortAnalysis.ts` lines 136-142). -/
def assignCohort (cohortType : String) (c : CustomerSummary) : CustomerSummary :=
  { c with
    cohortName :=
      formatCohortName (getCohortStartDate c.firstTransactionDate cohortType)
        cohortType }

/-- The cohort groups of `calculateRealCohortAnalysis` (lines 131-148):
customer summaries keyed by cohort name, `Map` insertion order. -/
def cohortGroupsFor (transactions : List TransactionData)
    (cohortType : String) : List (String × List CustomerSummary) :=
  groupByKey (fun c => c.cohortName)
    ((processTransactionData transactions).map (assignCohort cohortType))

/-- One member's contribution to a cohort's `initialRevenue`
(`cohortAnalysis.ts` lines 161-164): the `arr` of the first transaction of
kind `new`, or 0 when there is none. -/
def firstNewArr (c : CustomerSummary) : Int :=
  match c.transactions.find? fun t => t.transactionType == TxType.new with
  | some firstTransaction => firstTransaction.arr
  | none => 0

/-- The inner accumulation of `totalRevenue` over a cohort's customers
(`cohortAnalysis.ts` lines 174-179). -/
def monthRevenueTotal (cohortCustomers : List CustomerSummary)
    (targetDate : DateYMD) (settings : AnalysisSettings) : Int :=
  cohortCustomers.foldl
    (fun totalRevenue c =>
      totalRevenue + getCustomerRevenueForMonth c targetDate settings) 0

/-- Placeholder for `cohortCustomers[0]` on an empty group; unreachable
because cohort groups are never empty. -/
def dummyCustomer : CustomerSummary :=
  ⟨"", ⟨0, 0, 1⟩, [], 0, false, ""⟩

/-- Build one `CohortData` (`cohortAnalysis.ts` lines 154-201). -/
def buildCohort (cohortType : String) (settings : AnalysisSettings)
    (cohortName : String) (cohortCustomers : List CustomerSummary) :
    CohortData :=
  let cohortStartDate :=
    getCohortStartDate (cohortCustomers.headD dummyCustomer).firstTransactionDate
      cohortType
  let initialRevenue :=
    cohortCustomers.foldl (fun sum c => sum + firstNewArr c) 0
  let retentionByMonth :=
    initialRevenue ::
      (List.range' 1 24).map fun monthOffset =>
        monthRevenueTotal cohortCustomers (addMonths cohortStartDate monthOffset)
          settings
  { cohortName := cohortName
    cohortDate := cohortStartDate
    initialRevenue := initialRevenue
    customers :=
      cohortCustomers.map fun cs =>
        ⟨cs.accountId, cs.firstTransactionDate, cs.currentARR⟩
    retentionByMonth := retentionByMonth }

/-- `calculateRealCohortAnalysis` (`cohortAnalysis.ts` lines 125-211): the
transaction-driven analysis entry point. -/
def calculateRealCohortAnalysis (transactions : List TransactionData)
    (cohortType : String) (settings : AnalysisSettings) : CohortAnalysis :=
  let cohortGroups := cohortGroupsFor transactions cohortType
  let cohorts := cohortGroups.map fun g => buildCohort cohortType settings g.1 g.2
  let maxMonths :=
    cohortGroups.foldl
      (fun acc g =>
        let cohortStartDate :=
          getCohortStartDate (g.2.headD dummyCustomer).firstTransactionDate
            cohortType
        (List.range' 1 24).foldl
          (fun mm monthOffset =>
            if 0 < monthRevenueTotal g.2 (addMonths cohortStartDate monthOffset)
                settings then
              max mm monthOffset
            else mm)
          acc)
      0
  { cohorts := stableSort (fun a b => dateLE a.cohortDate b.cohortDate) cohorts
    maxMonths := min maxMonths 24 }

/-- The label formats as the specification states them (§4.1): the spec-side
formatter for the refinement claim about `formatCohortName`. -/
def labelSpec (d : DateYMD) (g : String) : String :=
  if g = "month" then
    toString d.year ++ "-" ++
      (if d.month + 1 < 10 then "0" ++ toString (d.month + 1)
       else toString (d.month + 1))
  else if g = "quarter" then
    "Q" ++ toString (d.month / 3 + 1) ++ " " ++ toString d.year
  else
    toString d.year

/-- Scenario transaction: customer "A" acquires for 1000 on 2023-01-01. -/
def txScenarioNew : TransactionData := ⟨"A", ⟨2023, 0, 1⟩, 1000, TxType.new⟩

/-- Scenario transaction: customer "A" expands to 1500 on 2023-04-01. -/
def txScenarioExpansion : TransactionData :=
  ⟨"A", ⟨2023, 3, 1⟩, 1500, TxType.expansion⟩

/-- Witness customer: acquired for 1000 on 2023-01-01, churned 2023-06-01. -/
def churnCustomer : CustomerSummary :=
  ⟨"B", ⟨2023, 0, 1⟩,
    [⟨"B", ⟨2023, 0, 1⟩, 1000, TxType.new⟩,
     ⟨"B", ⟨2023, 5, 1⟩, 0, TxType.churn⟩],
    0, false, "Q1 2023"⟩

/-- Witness customer: acquired for 1000 on 2023-01-01, expanded to 1500 on
2023-04-01. -/
def expandCustomer : CustomerSummary :=
  ⟨"A", ⟨2023, 0, 1⟩, [txScenarioNew, txScenarioExpansion], 1500, true,
    "Q1 2023"⟩

/-- Witness transactions: a customer acquired for 1000 on 2023-01-05 who
churns on 2023-01-20, before the first month-offset target date. -/
def earlyChurnTransactions : List TransactionData :=
  [⟨"C", ⟨2023, 0, 5⟩, 1000, TxType.new⟩,
   ⟨"C", ⟨2023, 0, 20⟩, 0, TxType.churn⟩]

theorem orderedInsert_perm (le : α → α → Bool) (x : α) (l : List α) :
    List.Perm (orderedInsert le x l) (x :: l) := by
  induction l with
  | nil => exact List.Perm.refl _
  | cons y ys ih =>
    simp only [orderedInsert]
    split
    · exact List.Perm.refl _
    · exact (ih.cons y).trans (List.Perm.swap x y ys)

theorem stableSort_perm (le : α → α → Bool) (l : List α) :
    List.Perm (stableSort le l) l := by
  induction l with
  | nil => exact List.Perm.refl _
  | cons x xs ih =>
    exact (orderedInsert_perm le x (stableSort le xs)).trans (ih.cons x)

theorem foldl_congr_fun {f g : β → α → β} (h : ∀ b a, f b a = g b a)
    (l : List α) (b : β) : l.foldl f b = l.foldl g b := by
  induction l generalizing b with
  | nil => rfl
  | cons a l ih => rw [List.foldl_cons, List.foldl_cons, h]; exact ih _

theorem foldl_fixed {f : β → α → β} (l : List α)
    (h : ∀ b, ∀ a ∈ l, f b a = b) (b : β) : l.foldl f b = b := by
  induction l generalizing b with
  | nil => rfl
  | cons a l ih =>
    rw [List.foldl_cons, h b a (List.mem_cons_self a l)]
    exact ih (fun b' a' ha' => h b' a' (List.mem_cons_of_mem a ha')) b

theorem retention_getD_eq (f : Nat → Int) (init : Int) :
    ∀ m ∈ List.range' 1 24,
      (init :: (List.range' 1 24).map f).getD m 0 = f m := by
  intro m hm
  fin_cases hm <;> rfl

theorem revenue_ignores_excluded (c : CustomerSummary) (td : DateYMD)
    (i b1 b2 : Bool) :
    getCustomerRevenueForMonth c td ⟨i, b1⟩ =
      getCustomerRevenueForMonth c td ⟨i, b2⟩ := by
  simp only [getCustomerRevenueForMonth]
  cases hL : (c.transactions.filter fun t =>
      dateLE t.transactionDate td).getLast? with
  | none => rfl
  | some latest =>
    by_cases hc : latest.transactionType = TxType.churn
    · simp [hc]
    · simp [hc]

theorem monthRevenueTotal_ignores_excluded (cc : List CustomerSummary)
    (td : DateYMD) (i b1 b2 : Bool) :
    monthRevenueTotal cc td ⟨i, b1⟩ = monthRevenueTotal cc td ⟨i, b2⟩ := by
  unfold monthRevenueTotal
  exact foldl_congr_fun
    (fun tot c => by rw [revenue_ignores_excluded c td i b1 b2]) cc 0

theorem buildCohort_ignores_excluded (ct : String) (n : String)
    (cc : List CustomerSummary) (i b1 b2 : Bool) :
    buildCohort ct ⟨i, b1⟩ n cc = buildCohort ct ⟨i, b2⟩ n cc := by
  simp only [buildCohort]
  congr 1
  congr 1
  exact List.map_congr_left fun m _ =>
    monthRevenueTotal_ignores_excluded cc _ i b1 b2

theorem formatCohortName_default (d : DateYMD) (g : String)
    (h1 : g ≠ "month") (h2 : g ≠ "year") :
    formatCohortName d g = formatCohortName d "quarter" := by
  by_cases hq : g = "quarter"
  · rw [hq]
  · simp only [formatCohortName, if_neg h1, if_neg hq, if_neg h2]
    rfl

theorem getCohortStartDate_default (d : DateYMD) (g : String)
    (h1 : g ≠ "month") (h2 : g ≠ "year") :
    getCohortStartDate d g = getCohortStartDate d "quarter" := by
  by_cases hq : g = "quarter"
  · rw [hq]
  · simp only [getCohortStartDate, if_neg h1, if_neg hq, if_neg h2]
    rfl

/-- C1: for every input transaction sequence, granularity, and settings,
every cohort in the report satisfies `retentionByMonth[0] = initialRevenue`,
and `initialRevenue` is the sum over the cohort's member customers of each
member's first `new`-kind transaction revenue (`firstNewArr`, which is 0 for
a member with no `new` transaction). -/
theorem month0_invariant (transactions : List TransactionData)
    (cohortType : String) (settings : AnalysisSettings) :
    ∀ c ∈ (calculateRealCohortAnalysis transactions cohortType settings).cohorts,
      c.retentionByMonth.getD 0 0 = c.initialRevenue ∧
      ∃ g ∈ cohortGroupsFor transactions cohortType,
        c.cohortName = g.1 ∧
        c.initialRevenue = g.2.foldl (fun sum cu => sum + firstNewArr cu) 0 := by
  intro c hc
  simp only [calculateRealCohortAnalysis] at hc
  have hc2 : c ∈ (cohortGroupsFor transactions cohortType).map
      (fun g => buildCohort cohortType settings g.1 g.2) :=
    (stableSort_perm _ _).mem_iff.mp hc
  obtain ⟨g, hg, rfl⟩ := List.mem_map.mp hc2
  exact ⟨rfl, g, hg, rfl, rfl⟩

/-- C1 witness: the month-0 invariant evaluated on the quarter scenario. -/
theorem month0_invariant_check :
    ((calculateRealCohortAnalysis [txScenarioNew, txScenarioExpansion]
        "quarter" ⟨true, false⟩).cohorts.headD
          ⟨"", ⟨0, 0, 1⟩, 0, [], []⟩) ∈
      (calculateRealCohortAnalysis [txScenarioNew, txScenarioExpansion]
        "quarter" ⟨true, false⟩).cohorts ∧
    (((calculateRealCohortAnalysis [txScenarioNew, txScenarioExpansion]
        "quarter" ⟨true, false⟩).cohorts.headD
          ⟨"", ⟨0, 0, 1⟩, 0, [], []⟩).retentionByMonth.getD 0 0 =
      ((calculateRealCohortAnalysis [txScenarioNew, txScenarioExpansion]
        "quarter" ⟨true, false⟩).cohorts.headD
          ⟨"", ⟨0, 0, 1⟩, 0, [], []⟩).initialRevenue ∧
      ∃ g ∈ cohortGroupsFor [txScenarioNew, txScenarioExpansion] "quarter",
        ((calculateRealCohortAnalysis [txScenarioNew, txScenarioExpansion]
          "quarter" ⟨true, false⟩).cohorts.headD
            ⟨"", ⟨0, 0, 1⟩, 0, [], []⟩).cohortName = g.1 ∧
        ((calculateRealCohortAnalysis [txScenarioNew, txScenarioExpansion]
          "quarter" ⟨true, false⟩).cohorts.headD
            ⟨"", ⟨0, 0, 1⟩, 0, [], []⟩).initialRevenue =
          g.2.foldl (fun sum cu => sum + firstNewArr cu) 0) :=
  ⟨by decide,
    month0_invariant [txScenarioNew, txScenarioExpansion] "quarter"
      ⟨true, false⟩ _ (by decide)⟩

/-- C2: whenever the latest transaction at or before the target date (the
last entry of the date-filtered, chronologically sorted history) has kind
`churn`, the customer's contribution is 0 for every settings value — in
particular for both values of `excludeChurnedAccounts`. -/
theorem churn_zeroes_contribution (customer : CustomerSummary)
    (targetDate : DateYMD) (latest : TransactionData)
    (settings : AnalysisSettings)
    (h1 : (customer.transactions.filter fun t =>
        dateLE t.transactionDate targetDate).getLast? = some latest)
    (h2 : latest.transactionType = TxType.churn) :
    getCustomerRevenueForMonth customer targetDate settings = 0 := by
  simp only [getCustomerRevenueForMonth, h1]
  rw [if_pos h2]
  cases settings.excludeChurnedAccounts <;> rfl

/-- C2 witness: the churned customer contributes 0 on 2023-06-01 under both
values of `excludeChurnedAccounts`. -/
theorem churn_zeroes_contribution_check :
    (churnCustomer.transactions.filter fun t =>
        dateLE t.transactionDate ⟨2023, 5, 1⟩).getLast? =
      some ⟨"B", ⟨2023, 5, 1⟩, 0, TxType.churn⟩ ∧
    getCustomerRevenueForMonth churnCustomer ⟨2023, 5, 1⟩ ⟨true, false⟩ = 0 ∧
    getCustomerRevenueForMonth churnCustomer ⟨2023, 5, 1⟩ ⟨true, true⟩ = 0 :=
  ⟨by decide,
    churn_zeroes_contribution churnCustomer ⟨2023, 5, 1⟩
      ⟨"B", ⟨2023, 5, 1⟩, 0, TxType.churn⟩ ⟨true, false⟩ (by decide) rfl,
    churn_zeroes_contribution churnCustomer ⟨2023, 5, 1⟩
      ⟨"B", ⟨2023, 5, 1⟩, 0, TxType.churn⟩ ⟨true, true⟩ (by decide) rfl⟩

/-- C3: with `includeExpansionARR = false`, a customer whose history contains
a first transaction of kind `new` with positive revenue (`t0`, as found by
the code's search) never contributes more than `t0.arr` at any target date,
whatever the `excludeChurnedAccounts` setting. -/
theorem expansion_clipping (customer : CustomerSummary) (targetDate : DateYMD)
    (b : Bool) (t0 : TransactionData)
    (h : customer.transactions.find? (fun t =>
        decide (0 < t.arr) && (t.transactionType == TxType.new)) = some t0) :
    getCustomerRevenueForMonth customer targetDate ⟨false, b⟩ ≤ t0.arr := by
  have hp := List.find?_some h
  rw [Bool.and_eq_true] at hp
  have h0 : 0 < t0.arr := of_decide_eq_true hp.1
  simp only [getCustomerRevenueForMonth]
  cases hL : (customer.transactions.filter fun t =>
      dateLE t.transactionDate targetDate).getLast? with
  | none => exact le_of_lt h0
  | some latest =>
    by_cases hc : latest.transactionType = TxType.churn
    · simp only [hc, if_pos rfl]
      cases b <;> simp <;> omega
    · simp only [if_neg hc, Bool.not_false, if_pos rfl, h]
      exact max_le (min_le_right _ _) h0.le

/-- C3 witness: the expanding customer is clipped back to the original 1000
at the expansion date once `includeExpansionARR` is off. -/
theorem expansion_clipping_check :
    expandCustomer.transactions.find? (fun t =>
        decide (0 < t.arr) && (t.transactionType == TxType.new)) =
      some txScenarioNew ∧
    getCustomerRevenueForMonth expandCustomer ⟨2023, 3, 1⟩ ⟨false, false⟩ ≤
      txScenarioNew.arr :=
  ⟨by decide,
    expansion_clipping expandCustomer ⟨2023, 3, 1⟩ false txScenarioNew
      (by decide)⟩

/-- C4: the quarter scenario of §8 of the spec: single customer "A" with a
`new` 1000 on 2023-01-01 and an `expansion` 1500 on 2023-04-01, quarterly
cohorts, expansion included: exactly one cohort "Q1 2023" with
`initialRevenue = 1000`, offsets 0-2 at 1000 and offsets 3-24 at 1500. -/
theorem quarter_expansion_scenario :
    calculateRealCohortAnalysis [txScenarioNew, txScenarioExpansion]
        "quarter" ⟨true, false⟩ =
      ⟨[⟨"Q1 2023", ⟨2023, 0, 1⟩, 1000, [⟨"A", ⟨2023, 0, 1⟩, 1500⟩],
         1000 :: 1000 :: 1000 :: List.replicate 22 1500⟩], 24⟩ := by
  decide

/-- C5: the transaction-driven analysis is deterministic: two calls with
identical arguments return identical reports. In this pure-functional
embedding of `calculateRealCohortAnalysis` (which, unlike the excluded
legacy simulated path, reads no random source) this is reflexivity. -/
theorem analysis_deterministic (transactions : List TransactionData)
    (cohortType : String) (settings : AnalysisSettings) :
    calculateRealCohortAnalysis transactions cohortType settings =
      calculateRealCohortAnalysis transactions cohortType settings := rfl

/-- C6 counterexample: the unrecognized granularity value "week" does not
fail; the analysis silently returns a normal report whose single cohort
carries the quarter-format label "Q1 2023". -/
theorem unknown_granularity_silent_report :
    (calculateRealCohortAnalysis [txScenarioNew] "week"
        ⟨true, false⟩).cohorts.map (fun c => c.cohortName) = ["Q1 2023"] ∧
    (calculateRealCohortAnalysis [txScenarioNew] "week"
        ⟨true, false⟩).cohorts ≠ [] := by
  exact ⟨by decide, by decide⟩

/-- C6 amended: at runtime an unrecognized granularity value is not
rejected: the `default:` branches of `formatCohortName` and
`getCohortStartDate` make the analysis treat any value other than "month"
and "year" exactly like "quarter", silently producing the quarter report
(the typed interface's union only makes other values unrepresentable
statically). -/
theorem unknown_granularity_treated_as_quarter
    (transactions : List TransactionData) (g : String)
    (settings : AnalysisSettings) (h1 : g ≠ "month") (h2 : g ≠ "year") :
    calculateRealCohortAnalysis transactions g settings =
      calculateRealCohortAnalysis transactions "quarter" settings := by
  have hassign : ∀ c : CustomerSummary, assignCohort g c = assignCohort "quarter" c := by
    intro c
    simp only [assignCohort]
    rw [getCohortStartDate_default _ g h1 h2, formatCohortName_default _ g h1 h2]
  have hgroups : cohortGroupsFor transactions g =
      cohortGroupsFor transactions "quarter" := by
    simp only [cohortGroupsFor]
    rw [List.map_congr_left fun c _ => hassign c]
  have hbuild : ∀ (n : String) (cc : List CustomerSummary),
      buildCohort g settings n cc = buildCohort "quarter" settings n cc := by
    intro n cc
    simp only [buildCohort]
    rw [getCohortStartDate_default _ g h1 h2]
  simp only [calculateRealCohortAnalysis]
  rw [hgroups]
  rw [List.map_congr_left fun p _ => hbuild p.1 p.2]
  have hmax : ∀ (acc : Nat) (p : String × List CustomerSummary),
      (List.range' 1 24).foldl
        (fun mm monthOffset =>
          if 0 < monthRevenueTotal p.2
              (addMonths (getCohortStartDate
                (p.2.headD dummyCustomer).firstTransactionDate g) monthOffset)
              settings then
            max mm monthOffset
          else mm) acc =
      (List.range' 1 24).foldl
        (fun mm monthOffset =>
          if 0 < monthRevenueTotal p.2
              (addMonths (getCohortStartDate
                (p.2.headD dummyCustomer).firstTransactionDate "quarter")
                monthOffset)
              settings then
            max mm monthOffset
          else mm) acc := by
    intro acc p
    exact foldl_congr_fun
      (fun mm m => by rw [getCohortStartDate_default _ g h1 h2]) _ acc
  rw [foldl_congr_fun (fun acc p => hmax acc p) _ 0]

/-- C6 witness: the amended claim instantiated at the unrecognized value
"week". -/
theorem unknown_granularity_treated_as_quarter_check :
    ("week" ≠ "month" ∧ "week" ≠ "year") ∧
    calculateRealCohortAnalysis [txScenarioNew] "week" ⟨true, false⟩ =
      calculateRealCohortAnalysis [txScenarioNew] "quarter" ⟨true, false⟩ :=
  ⟨⟨by decide, by decide⟩,
    unknown_granularity_treated_as_quarter [txScenarioNew] "week"
      ⟨true, false⟩ (by decide) (by decide)⟩

/-- C7: the empty transaction sequence yields the report
`{cohorts := [], maxMonths := 0}` for every granularity and settings; there
is no error path. -/
theorem empty_transactions_report (cohortType : String)
    (settings : AnalysisSettings) :
    calculateRealCohortAnalysis [] cohortType settings = ⟨[], 0⟩ := rfl

/-- C8: `formatCohortName` produces exactly the display formats the spec
states: "YYYY-MM" with zero-padded month for `month`, "Q<n> YYYY" with
`n = month / 3 + 1` for `quarter`, and "YYYY" for `year`, for every date
with a valid (0-based, < 12) month component. -/
theorem formatCohortName_matches_spec (d : DateYMD) (h : d.month < 12) :
    formatCohortName d "month" = labelSpec d "month" ∧
    formatCohortName d "quarter" = labelSpec d "quarter" ∧
    formatCohortName d "year" = labelSpec d "year" := by
  obtain ⟨y, m, day⟩ := d
  refine ⟨?_, ?_, ?_⟩
  · simp only [formatCohortName, labelSpec]
    norm_num
    interval_cases m <;> rfl
  · rfl
  · rfl

/-- C8 witness: the three formats evaluated at 2023-04-01. -/
theorem formatCohortName_matches_spec_check :
    (3 : Nat) < 12 ∧
    (formatCohortName ⟨2023, 3, 1⟩ "month" = labelSpec ⟨2023, 3, 1⟩ "month" ∧
     formatCohortName ⟨2023, 3, 1⟩ "quarter" = labelSpec ⟨2023, 3, 1⟩ "quarter" ∧
     formatCohortName ⟨2023, 3, 1⟩ "year" = labelSpec ⟨2023, 3, 1⟩ "year") :=
  ⟨by decide, formatCohortName_matches_spec ⟨2023, 3, 1⟩ (by decide)⟩

/-- C9: on the transaction-driven path the `excludeChurnedAccounts` toggle
has no effect whatsoever: for every input and every value of
`includeExpansionARR`, the reports for `excludeChurnedAccounts = true` and
`= false` are identical, because the only read of the toggle sits in a
branch both of whose outcomes are 0. -/
theorem excludeChurnedAccounts_noop (transactions : List TransactionData)
    (cohortType : String) (i : Bool) :
    calculateRealCohortAnalysis transactions cohortType ⟨i, true⟩ =
      calculateRealCohortAnalysis transactions cohortType ⟨i, false⟩ := by
  simp only [calculateRealCohortAnalysis]
  have hcoh : (cohortGroupsFor transactions cohortType).map
        (fun g => buildCohort cohortType ⟨i, true⟩ g.1 g.2) =
      (cohortGroupsFor transactions cohortType).map
        (fun g => buildCohort cohortType ⟨i, false⟩ g.1 g.2) :=
    List.map_congr_left fun g _ =>
      buildCohort_ignores_excluded cohortType g.1 g.2 i true false
  rw [hcoh]
  have hmax : ∀ (acc : Nat) (g : String × List CustomerSummary),
      (List.range' 1 24).foldl
        (fun mm monthOffset =>
          if 0 < monthRevenueTotal g.2
              (addMonths (getCohortStartDate
                (g.2.headD dummyCustomer).firstTransactionDate cohortType)
                monthOffset)
              ⟨i, true⟩ then
            max mm monthOffset
          else mm) acc =
      (List.range' 1 24).foldl
        (fun mm monthOffset =>
          if 0 < monthRevenueTotal g.2
              (addMonths (getCohortStartDate
                (g.2.headD dummyCustomer).firstTransactionDate cohortType)
                monthOffset)
              ⟨i, false⟩ then
            max mm monthOffset
          else mm) acc := by
    intro acc g
    exact foldl_congr_fun
      (fun mm m => by
        rw [monthRevenueTotal_ignores_excluded g.2 _ i true false]) _ acc
  rw [foldl_congr_fun (fun acc g => hmax acc g)
    (cohortGroupsFor transactions cohortType) 0]

/-- C10: `maxMonths` only tracks offsets 1 through 24: whenever every cohort
of the report has value 0 at every offset 1..24, `maxMonths` is 0 — a
positive value at offset 0 (`initialRevenue`) never raises it. -/
theorem maxMonths_ignores_month0 (transactions : List TransactionData)
    (cohortType : String) (settings : AnalysisSettings)
    (H : ∀ c ∈ (calculateRealCohortAnalysis transactions cohortType
        settings).cohorts,
        ∀ m ∈ List.range' 1 24, c.retentionByMonth.getD m 0 = 0) :
    (calculateRealCohortAnalysis transactions cohortType settings).maxMonths
      = 0 := by
  have key : ∀ g ∈ cohortGroupsFor transactions cohortType,
      ∀ m ∈ List.range' 1 24,
      monthRevenueTotal g.2
        (addMonths (getCohortStartDate
          (g.2.headD dummyCustomer).firstTransactionDate cohortType) m)
        settings = 0 := by
    intro g hg m hm
    have hcmem : buildCohort cohortType settings g.1 g.2 ∈
        (calculateRealCohortAnalysis transactions cohortType settings).cohorts := by
      simp only [calculateRealCohortAnalysis]
      exact (stableSort_perm _ _).mem_iff.mpr (List.mem_map_of_mem _ hg)
    have hz := H _ hcmem m hm
    rw [← retention_getD_eq
      (fun mo => monthRevenueTotal g.2
        (addMonths (getCohortStartDate
          (g.2.headD dummyCustomer).firstTransactionDate cohortType) mo)
        settings)
      (g.2.foldl (fun sum cu => sum + firstNewArr cu) 0) m hm]
    exact hz
  simp only [calculateRealCohortAnalysis]
  have houter : (cohortGroupsFor transactions cohortType).foldl
      (fun acc g =>
        (List.range' 1 24).foldl
          (fun mm monthOffset =>
            if 0 < monthRevenueTotal g.2
                (addMonths (getCohortStartDate
                  (g.2.headD dummyCustomer).firstTransactionDate cohortType)
                  monthOffset) settings then
              max mm monthOffset
            else mm) acc) 0 = 0 := by
    apply foldl_fixed
    intro acc g hg
    apply foldl_fixed
    intro mm m hm
    rw [if_neg]
    have := key g hg m hm
    omega
  rw [houter]
  rfl

/-- C10 witness: a customer acquired for 1000 who churns before the first
month-offset target: `initialRevenue` is a positive 1000, every offset
1..24 is 0, and `maxMonths` is 0. -/
theorem maxMonths_ignores_month0_check :
    (∀ c ∈ (calculateRealCohortAnalysis earlyChurnTransactions "quarter"
        ⟨true, false⟩).cohorts,
        ∀ m ∈ List.range' 1 24, c.retentionByMonth.getD m 0 = 0) ∧
    (calculateRealCohortAnalysis earlyChurnTransactions "quarter"
      ⟨true, false⟩).maxMonths = 0 ∧
    ((calculateRealCohortAnalysis earlyChurnTransactions "quarter"
        ⟨true, false⟩).cohorts.headD
          ⟨"", ⟨0, 0, 1⟩, 0, [], []⟩).initialRevenue = 1000 :=
  ⟨by decide,
    maxMonths_ignores_month0 earlyChurnTransactions "quarter" ⟨true, false⟩
      (by decide),
    by decide⟩
